import Mathlib

/-!
Verification development for freqtrade_api_bot.py, a periodic polling
client for a trading-bot REST API.  Python real numbers are modelled as
rationals, fallible Python code as Except values, and side effects
(network requests, social posts, database writes, sleeps, log lines) as
an explicit effect trace.
-/

/-- Python exceptions that can arise in one poll cycle of the script. -/
inductive PyExc where
  /-- ZeroDivisionError raised by float division in percentage. -/
  | zeroDivision
  /-- TypeError raised when subscripting None, e.g. when output_profit is None. -/
  | typeNoneNotSubscriptable
  /-- IndexError raised by selecting element 0 of an empty data list. -/
  | indexOutOfRange
deriving DecidableEq, Repr

/-- Python exception message, as interpolated into the log line printed
by the cycle error handler. -/
def pyMsg : PyExc → String
  | .zeroDivision => "float division by zero"
  | .typeNoneNotSubscriptable => "NoneType object is not subscriptable"
  | .indexOutOfRange => "list index out of range"

/-- Decimal digit character, code 48 + d for d < 10. -/
def digitChar (d : Nat) : Char := Char.ofNat (48 + d)

/-- Decimal rendering of a natural number as a list of digit characters
(most significant first), as produced by str() on a nonnegative int. -/
def renderNat (n : Nat) : List Char :=
  if _h : n < 10 then [digitChar n]
  else renderNat (n / 10) ++ [digitChar (n % 10)]
termination_by n
decreasing_by exact Nat.div_lt_self (by omega) (by omega)

/-- One step of left-to-right decimal parsing: take an accumulator and a
character; fail on a non-digit. -/
def digitStep (o : Option Nat) (c : Char) : Option Nat :=
  match o with
  | none => none
  | some a => if 48 ≤ c.toNat ∧ c.toNat ≤ 57 then some (10 * a + (c.toNat - 48)) else none

/-- Parse a list of decimal digit characters into a natural number. -/
def parseDigits (cs : List Char) : Option Nat := cs.foldl digitStep (some 0)

/-- Round a rational to the nearest integer with ties to even.  This is
the rounding that %.2f formatting applies to the (here exactly
represented) value scaled by 100. -/
def roundHalfEven (q : ℚ) : ℤ :=
  if Int.fract q < 1/2 then ⌊q⌋
  else if 1/2 < Int.fract q then ⌊q⌋ + 1
  else if ⌊q⌋ % 2 = 0 then ⌊q⌋ else ⌊q⌋ + 1

/-- Character data of the fixed two-decimal rendering of n hundredths:
optional minus sign, integer part, point, exactly two fraction digits. -/
def fmt2data (n : ℤ) : List Char :=
  let a := n.natAbs
  (if n < 0 then ['-'] else []) ++ renderNat (a / 100) ++
    '.' :: (if a % 100 < 10 then '0' :: renderNat (a % 100) else renderNat (a % 100))

/-- The string produced by %.2f formatting of a value whose hundredths
round to n. -/
def fmt2 (n : ℤ) : String := ⟨fmt2data n⟩

/-- Python source, freqtrade_api_bot.py lines 262-263:
percentage(part, whole) returns "%.2f" % (100 * float(part) / float(whole)).
Python float division by zero raises ZeroDivisionError; otherwise the
value 100 * part / whole is formatted with exactly two decimal places. -/
def percentage (part whole : ℚ) : Except PyExc String :=
  if whole = 0 then .error .zeroDivision
  else .ok (fmt2 (roundHalfEven (100 * part / whole * 100)))

/-- Parse the unsigned body of a fixed two-decimal string: digits, one
point, exactly two fraction digits; scale by the given sign factor. -/
def parseFix2core (ds : List Char) (sgn : ℚ) : Option ℚ :=
  match ds.dropWhile (fun ch => ch != '.') with
  | dot :: f1 :: f2 :: [] =>
    if dot = '.' ∧ ds.takeWhile (fun ch => ch != '.') ≠ [] then
      match parseDigits (ds.takeWhile (fun ch => ch != '.')), parseDigits [f1, f2] with
      | some iv, some fv => some (sgn * ((iv : ℚ) + (fv : ℚ) / 100))
      | _, _ => none
    else none
  | _ => none

/-- Parse a string in fixed two-decimal notation (optional minus sign,
nonempty integer digits, point, exactly two fraction digits) as the
rational it denotes; reject anything else. -/
def parseFix2 (s : String) : Option ℚ :=
  match s.data with
  | [] => none
  | c :: cs => if c = '-' then parseFix2core cs (-1) else parseFix2core (c :: cs) 1

/-- One value bound into a database row: SQLite dynamic typing narrowed
to what db_save actually passes. -/
inductive DBValue where
  | num (q : ℚ)
  | int (z : ℤ)
  | str (s : String)
deriving DecidableEq, Repr

/-- Observable side effects of the script, in execution order. -/
inductive Effect where
  /-- An HTTP request put on the wire by requests.Session.request. -/
  | networkRequest (method url : String)
  /-- logger.warning output. -/
  | logWarning (msg : String)
  /-- Console output of the command listing (print_commands). -/
  | printed (lines : List String)
  /-- Social post: tweepy api.update_status(text). -/
  | statusUpdate (text : String)
  /-- Execution of the CREATE TABLE IF NOT EXISTS statement. -/
  | dbCreateTable
  /-- INSERT of one row into the trades table, keyed column name to value. -/
  | dbInsertRow (row : List (String × DBValue))
  /-- Console output of the sleep announcement, carrying minutes. -/
  | logSleep (minutes : ℚ)
  /-- Console output of the cycle error handler. -/
  | logError (msg : String)
  /-- time.sleep(seconds). -/
  | sleep (seconds : ℚ)
deriving DecidableEq, Repr

/-- Fields of the profit summary response that the script reads
(output_profit subscripts in tweet and db_save). -/
structure ProfitSummary where
  profit_closed_coin : ℚ
  profit_all_coin : ℚ
  best_rate : ℚ
  best_pair : String
  trade_count : ℤ
  closed_trade_count : ℤ
  latest_trade_date : String
  avg_duration : String
deriving DecidableEq, Repr

/-- Fields of one day entry of the daily response that the script reads
(output_daily_data subscripts). -/
structure DailyData where
  date : String
  abs_profit : ℚ
  trade_count : ℤ
deriving DecidableEq, Repr

/-- The daily response shape consumed by main: a dict holding a list of
day entries under the data key. -/
structure DailyResponse where
  data : List DailyData
deriving DecidableEq, Repr

/-- Outcome of one synchronous HTTP round trip, as seen by _call:
either a transport-level connection failure or a response whose parsed
JSON body is modelled opaquely as a string. -/
inductive Transport where
  | connectionError
  | response (body : String)
deriving DecidableEq, Repr

/-- Python: class FtRestClient, constructed from a server URL and
optional basic-auth credentials. -/
structure FtRestClient where
  serverurl : String
  username : Option String := none
  password : Option String := none
deriving DecidableEq, Repr

/-- The HTTP verbs accepted by FtRestClient._call. -/
def validMethods : List String := ["GET", "POST", "PUT", "DELETE"]

/-- ASCII upper-casing of a string, modelling str.upper() as applied to
an HTTP verb. -/
def strUpper (s : String) : String := ⟨s.data.map Char.toUpper⟩

/-- Query-string encoding of parameters, modelling urllib.parse.urlencode
for key/value pairs free of reserved characters. -/
def urlencode (params : List (String × String)) : String :=
  String.intercalate "&" (params.map (fun kv => kv.1 ++ "=" ++ kv.2))

/-- Python: FtRestClient._call (lines 37-57).  Raises ValueError for a
verb outside GET/POST/PUT/DELETE before anything is sent; otherwise
builds the url from the api/v1 prefix, the path and the urlencoded
query, performs the request, and on ConnectionError logs a warning and
returns None (here: ok none) instead of raising.  The request body and
headers are not modelled; the parsed JSON response is opaque. -/
def FtRestClient.call (c : FtRestClient) (method apipath : String)
    (params : Option (List (String × String))) (transport : Transport) :
    List Effect × Except String (Option String) :=
  if (validMethods.contains (strUpper method)) = false then
    ([], .error ("invalid method <" ++ method ++ ">"))
  else
    let query := match params with
      | none => ""
      | some ps => if ps.isEmpty then "" else urlencode ps
    let url := c.serverurl ++ "/api/v1/" ++ apipath ++
      (if query = "" then "" else "?" ++ query)
    match transport with
    | .connectionError => ([.networkRequest method url, .logWarning "Connection error"], .ok none)
    | .response body => ([.networkRequest method url], .ok (some body))

/-- Python: FtRestClient._get delegates to _call with method GET. -/
def FtRestClient.get (c : FtRestClient) (apipath : String)
    (params : Option (List (String × String))) (transport : Transport) :
    List Effect × Except String (Option String) :=
  c.call "GET" apipath params transport

/-- Python: FtRestClient.daily builds the query parameters as
a timescale entry if days is truthy, else None; 0 and None are falsy. -/
def dailyParams (days : Option ℤ) : Option (List (String × String)) :=
  match days with
  | some d => if d ≠ 0 then some [("timescale", toString d)] else none
  | none => none

/-- Python: FtRestClient.daily (lines 107-112). -/
def FtRestClient.daily (c : FtRestClient) (days : Option ℤ) (transport : Transport) :
    List Effect × Except String (Option String) :=
  c.get "daily" (dailyParams days) transport

/-- The public commands of FtRestClient with the first line of each
doc string, in the alphabetical order produced by inspect.getmembers. -/
def client_commands : List (String × String) :=
  [("balance", "Get the account balance."),
   ("blacklist", "Show the current blacklist."),
   ("count", "Return the amount of open trades."),
   ("daily", "Return the amount of open trades."),
   ("edge", "Return information about edge."),
   ("forcebuy", "Buy an asset."),
   ("forcesell", "Force-sell a trade."),
   ("performance", "Return the performance of the different coins."),
   ("profit", "Return the profit summary."),
   ("reload_conf", "Reload configuration."),
   ("show_config", "Returns part of the configuration, relevant for trading operations."),
   ("start", "Start the bot if it is in the stopped state."),
   ("status", "Get the status of open trades."),
   ("stop", "Stop the bot. Use start to restart."),
   ("stopbuy", "Stop buying (but handle sells gracefully). Use reload_conf to reset."),
   ("trades", "Return trades history."),
   ("version", "Return the version of the bot."),
   ("whitelist", "Show the current whitelist.")]

/-- Python: print_commands (lines 250-259) prints each public method
name followed by its doc string; it touches no network. -/
def print_commands_output : List String :=
  client_commands.map (fun kv => kv.1 ++ "\n\t" ++ kv.2 ++ "\n")

/-- The composed report lines of tweet (lines 277-312), built after the
five percentage computations.  Python evaluates closed_profit_today
first (it only needs the daily data), then subscripts output_profit,
which raises TypeError when the profit fetch returned None; every
percentage call can raise ZeroDivisionError.  The divisors follow the
source: every metric divides by starting_capital except position size,
which divides by current_capital = starting_capital + profit_closed_coin. -/
def tweet_compose (profit : Option ProfitSummary) (dd : DailyData)
    (starting_capital position_size : ℚ) : Except PyExc (List String) := do
  let closed_profit_today ← percentage dd.abs_profit starting_capital
  match profit with
  | none => .error .typeNoneNotSubscriptable
  | some p => do
    let closed_profit_percentage_total ← percentage p.profit_closed_coin starting_capital
    let open_profit_percentage_total ← percentage p.profit_all_coin starting_capital
    let position_size_pct ← percentage position_size (starting_capital + p.profit_closed_coin)
    let best_pair_profit_percentage ← percentage p.best_rate starting_capital
    .ok ["Closed profit today (" ++ dd.date ++ "): " ++ closed_profit_today ++ "%",
         "Trades today: " ++ toString dd.trade_count,
         "Open/closed total profit: " ++ open_profit_percentage_total ++ "%/" ++
           closed_profit_percentage_total ++ "%",
         "Position size: " ++ position_size_pct ++ "%",
         "Best: " ++ p.best_pair ++ " (" ++ best_pair_profit_percentage ++ "%)",
         "All trades/closed: " ++ toString p.trade_count ++ "/" ++
           toString p.closed_trade_count,
         "Last action: " ++ p.latest_trade_date,
         "Average trade duration: " ++ p.avg_duration]

/-- Python: tweet (lines 266-314).  The only effect is the final
api.update_status of the newline-joined report; any exception earlier
in the body prevents it. -/
def tweet (profit : Option ProfitSummary) (dd : DailyData)
    (starting_capital position_size : ℚ) : Except PyExc (List Effect) :=
  (tweet_compose profit dd starting_capital position_size).map
    (fun lines => [.statusUpdate (String.intercalate "\n" lines)])

/-- Column names of the trades table in the order declared by SQL_CREATE
(lines 334-350). -/
def trades_columns : List String :=
  ["timestamp", "day", "closed_profit_today", "trades_today",
   "closed_profit_percentage_total", "open_profit_percentage_total",
   "position_size", "best_pair", "best_pair_profit_percentage",
   "all_trades", "closed_trades", "last_action", "average_duration"]

/-- Python: db_save (lines 317-375).  Recomputes the same percentages as
tweet (so the same exceptions can occur, all before any database
statement), then creates the trades table if absent and inserts one row.
The inserted values appear in the source order of the INSERT tuple:
best_pair_profit_percentage is passed before best_pair. -/
def db_save (profit : Option ProfitSummary) (dd : DailyData)
    (starting_capital position_size : ℚ) (timestamp : ℚ) : Except PyExc (List Effect) := do
  let closed_profit_today ← percentage dd.abs_profit starting_capital
  match profit with
  | none => .error .typeNoneNotSubscriptable
  | some p => do
    let closed_profit_percentage_total ← percentage p.profit_closed_coin starting_capital
    let open_profit_percentage_total ← percentage p.profit_all_coin starting_capital
    let position_size_pct ← percentage position_size (starting_capital + p.profit_closed_coin)
    let best_pair_profit_percentage ← percentage p.best_rate starting_capital
    .ok [.dbCreateTable,
         .dbInsertRow (trades_columns.zip
           [.num timestamp, .str dd.date, .str closed_profit_today,
            .int dd.trade_count, .str closed_profit_percentage_total,
            .str open_profit_percentage_total, .str position_size_pct,
            .str best_pair_profit_percentage, .str p.best_pair,
            .int p.trade_count, .int p.closed_trade_count,
            .str p.latest_trade_date, .str p.avg_duration])]

/-- What escapes one call of main: either a Python exception from the
cycle body, or the SystemExit raised by sys.exit() on the show path. -/
inductive Raised where
  | exc (e : PyExc)
  | sysExit (code : Nat)
deriving DecidableEq, Repr

/-- Python: main (lines 378-409; named main_cycle here since Lean
reserves main for executables), parametrised by the outcomes of the two
fetches (profit and daily return None after a logged connection error)
and by the feature toggles.  With the show flag it prints the command
listing and raises SystemExit(0); otherwise it selects day entry 0 of
the daily response (raising on None or on an empty list), then runs the
enabled publishers in source order; an exception aborts the rest of the
body.  The fetch network traffic itself is outside this model, which
starts from the fetch results. -/
def main_cycle (showFlag : Bool) (profit : Option ProfitSummary) (daily : Option DailyResponse)
    (send_tweet save_to_db : Bool) (starting_capital position_size timestamp : ℚ) :
    List Effect × Option Raised :=
  if showFlag then ([.printed print_commands_output], some (.sysExit 0))
  else
    match daily with
    | none => ([], some (.exc .typeNoneNotSubscriptable))
    | some dresp =>
      match dresp.data.head? with
      | none => ([], some (.exc .indexOutOfRange))
      | some dd =>
        let step1 : List Effect × Option Raised :=
          if send_tweet then
            match tweet profit dd starting_capital position_size with
            | .ok effs => (effs, none)
            | .error e => ([], some (.exc e))
          else ([], none)
        match step1 with
        | (effs, some r) => (effs, some r)
        | (effs, none) =>
          if save_to_db then
            match db_save profit dd starting_capital position_size timestamp with
            | .ok effs2 => (effs ++ effs2, none)
            | .error e => (effs, some (.exc e))
          else (effs, none)

/-- Result of one iteration of the scheduler loop: the effect trace, and
whether the loop keeps running or the process exits with a status. -/
structure IterResult where
  effects : List Effect
  continues : Bool
  exitStatus : Option Nat
deriving DecidableEq, Repr

/-- Python: the while True loop at lines 429-436.  try main; on normal
return print the sleep announcement; except Exception print the error
and keep going; the finally block always sleeps run_interval seconds.
SystemExit is not an Exception, so the show path still runs the finally
sleep and then terminates the process. -/
def loop_iteration (showFlag : Bool) (profit : Option ProfitSummary)
    (daily : Option DailyResponse) (send_tweet save_to_db : Bool)
    (starting_capital position_size timestamp run_interval : ℚ) : IterResult :=
  match main_cycle showFlag profit daily send_tweet save_to_db
      starting_capital position_size timestamp with
  | (effs, none) =>
    ⟨effs ++ [.logSleep (run_interval / 60), .sleep run_interval], true, none⟩
  | (effs, some (.exc e)) =>
    ⟨effs ++ [.logError ("An error occurred: " ++ pyMsg e ++ ", skipping run"),
      .sleep run_interval], true, none⟩
  | (effs, some (.sysExit code)) =>
    ⟨effs ++ [.sleep run_interval], false, some code⟩

/-- Publish side effects: the social post and the database statements. -/
def isPublish : Effect → Bool
  | .statusUpdate _ => true
  | .dbCreateTable => true
  | .dbInsertRow _ => true
  | _ => false

theorem digitChar_toNat (d : Nat) (h : d < 10) : (digitChar d).toNat = 48 + d := by
  interval_cases d <;> decide

theorem renderNat_digits (n : Nat) : ∀ c ∈ renderNat n, 48 ≤ c.toNat ∧ c.toNat ≤ 57 := by
  induction n using Nat.strong_induction_on with
  | _ n ih =>
    unfold renderNat
    split_ifs with h
    · intro c hc
      simp only [List.mem_singleton] at hc
      subst hc
      rw [digitChar_toNat n h]
      omega
    · intro c hc
      rw [List.mem_append] at hc
      rcases hc with hc | hc
      · exact ih (n / 10) (Nat.div_lt_self (by omega) (by omega)) c hc
      · simp only [List.mem_singleton] at hc
        subst hc
        rw [digitChar_toNat _ (Nat.mod_lt _ (by omega))]
        omega

theorem renderNat_ne_nil (n : Nat) : renderNat n ≠ [] := by
  unfold renderNat
  split_ifs <;> simp

theorem digitStep_some (a : Nat) (c : Char) :
    digitStep (some a) c =
      if 48 ≤ c.toNat ∧ c.toNat ≤ 57 then some (10 * a + (c.toNat - 48)) else none := rfl

theorem foldl_digitStep_renderNat (n : Nat) : ∀ a : Nat,
    List.foldl digitStep (some a) (renderNat n) =
      some (a * 10 ^ (renderNat n).length + n) := by
  induction n using Nat.strong_induction_on with
  | _ n ih =>
    intro a
    unfold renderNat
    split_ifs with h
    · simp only [List.foldl, digitStep, List.length_singleton]
      rw [digitChar_toNat n h, if_pos (by omega)]
      congr 1
      omega
    · rw [List.foldl_append, ih (n / 10) (Nat.div_lt_self (by omega) (by omega)) a]
      have hm : n % 10 < 10 := Nat.mod_lt _ (by omega)
      simp only [List.foldl, digitStep]
      rw [digitChar_toNat _ hm, if_pos (by omega)]
      simp only [List.length_append, List.length_singleton]
      congr 1
      rw [pow_succ, ← mul_assoc]
      generalize a * 10 ^ (renderNat (n / 10)).length = K
      omega

theorem parseDigits_renderNat (n : Nat) : parseDigits (renderNat n) = some n := by
  rw [parseDigits, foldl_digitStep_renderNat n 0]
  simp

theorem digit_ne_dot {c : Char} (h : 48 ≤ c.toNat ∧ c.toNat ≤ 57) : (c != '.') = true := by
  rw [bne_iff_ne]
  intro he
  subst he
  have : ('.' : Char).toNat = 46 := rfl
  omega

theorem frac2_spec (m : Nat) (hm : m < 100) :
    ∃ f1 f2, (if m < 10 then '0' :: renderNat m else renderNat m) = [f1, f2] ∧
      parseDigits [f1, f2] = some m := by
  by_cases h : m < 10
  · refine ⟨'0', digitChar m, ?_, ?_⟩
    · rw [if_pos h]
      unfold renderNat
      rw [dif_pos h]
    · simp only [parseDigits, List.foldl]
      rw [show digitStep (some 0) '0' = some 0 from by decide]
      rw [digitStep_some, digitChar_toNat m h, if_pos (by omega)]
      congr 1
      omega
  · rw [if_neg h]
    have h10 : m / 10 < 10 := by omega
    refine ⟨digitChar (m / 10), digitChar (m % 10), ?_, ?_⟩
    · conv_lhs => rw [renderNat]
      rw [dif_neg h]
      conv_lhs => rw [renderNat]
      rw [dif_pos h10]
      rfl
    · simp only [parseDigits, List.foldl]
      rw [digitStep_some, digitChar_toNat _ h10, if_pos (by omega),
          digitStep_some, digitChar_toNat _ (Nat.mod_lt _ (by omega) : m % 10 < 10),
          if_pos (by omega)]
      congr 1
      omega

theorem parseFix2core_spec (A M : Nat) (f1 f2 : Char)
    (hpf : parseDigits [f1, f2] = some M) (sgn : ℚ) :
    parseFix2core (renderNat A ++ '.' :: [f1, f2]) sgn =
      some (sgn * ((A : ℚ) + (M : ℚ) / 100)) := by
  have hall : ∀ c ∈ renderNat A, ((fun ch => ch != '.') c) = true :=
    fun c hc => digit_ne_dot (renderNat_digits A c hc)
  have htake : (renderNat A ++ '.' :: [f1, f2]).takeWhile (fun ch => ch != '.') =
      renderNat A := by
    rw [List.takeWhile_append_of_pos hall]
    simp [List.takeWhile]
  have hdrop : (renderNat A ++ '.' :: [f1, f2]).dropWhile (fun ch => ch != '.') =
      '.' :: [f1, f2] := by
    rw [List.dropWhile_append_of_pos hall]
    simp [List.dropWhile]
  unfold parseFix2core
  rw [hdrop, htake]
  simp only [parseDigits_renderNat A, hpf, renderNat_ne_nil A, ne_eq,
    not_false_eq_true, and_true, reduceIte]

/-- Parsing inverts formatting: the canonical two-decimal string of n
hundredths denotes exactly n / 100. -/
theorem parseFix2_fmt2 (n : ℤ) : parseFix2 (fmt2 n) = some ((n : ℚ) / 100) := by
  have hm : n.natAbs % 100 < 100 := Nat.mod_lt _ (by omega)
  obtain ⟨f1, f2, hfrac, hpf⟩ := frac2_spec (n.natAbs % 100) hm
  have hval : ((n.natAbs / 100 : Nat) : ℚ) + ((n.natAbs % 100 : Nat) : ℚ) / 100 =
      (n.natAbs : ℚ) / 100 := by
    have hc := congrArg (fun k : Nat => (k : ℚ)) (Nat.div_add_mod n.natAbs 100)
    push_cast at hc
    field_simp
    linarith
  obtain ⟨c, cs, hren⟩ : ∃ c cs, renderNat (n.natAbs / 100) = c :: cs := by
    cases hr : renderNat (n.natAbs / 100) with
    | nil => exact absurd hr (renderNat_ne_nil _)
    | cons c cs => exact ⟨c, cs, rfl⟩
  have hcdig := renderNat_digits (n.natAbs / 100) c (by rw [hren]; exact List.mem_cons_self _ _)
  have hcne : ¬ (c = '-') := by
    intro he
    subst he
    have : ('-' : Char).toNat = 45 := rfl
    omega
  by_cases hn : n < 0
  · have hdata : (fmt2 n).data = '-' :: (renderNat (n.natAbs / 100) ++ '.' :: [f1, f2]) := by
      simp only [fmt2, fmt2data, if_pos hn, hfrac]
      rfl
    unfold parseFix2
    rw [hdata]
    simp only [reduceIte]
    rw [parseFix2core_spec _ _ _ _ hpf, hval]
    have hna : ((n.natAbs : ℚ)) = -(n : ℚ) := by
      rw [Int.cast_natAbs, abs_of_neg hn]
      push_cast
      ring
    rw [hna]
    congr 1
    ring
  · have hdata : (fmt2 n).data = c :: (cs ++ '.' :: [f1, f2]) := by
      simp only [fmt2, fmt2data, if_neg hn, hfrac, hren]
      rfl
    unfold parseFix2
    rw [hdata]
    simp only []
    rw [if_neg hcne]
    have hcc : c :: (cs ++ '.' :: [f1, f2]) = renderNat (n.natAbs / 100) ++ '.' :: [f1, f2] := by
      rw [hren]
      rfl
    rw [hcc]
    rw [parseFix2core_spec _ _ _ _ hpf, hval]
    have hna : ((n.natAbs : ℚ)) = (n : ℚ) := by
      rw [Int.cast_natAbs, abs_of_nonneg (le_of_not_lt hn)]
    rw [hna]
    congr 1
    ring

theorem roundHalfEven_close (q : ℚ) : |((roundHalfEven q : ℤ) : ℚ) - q| ≤ 1/2 := by
  have h0 : 0 ≤ Int.fract q := Int.fract_nonneg q
  have h1 : Int.fract q < 1 := Int.fract_lt_one q
  have hq : (⌊q⌋ : ℚ) + Int.fract q = q := Int.floor_add_fract q
  unfold roundHalfEven
  split_ifs with ha hb hc
  · rw [abs_le]
    constructor <;> linarith
  · rw [abs_le]
    push_cast
    constructor <;> linarith
  · rw [abs_le]
    constructor <;> linarith
  · rw [abs_le]
    push_cast
    constructor <;> linarith

theorem roundHalfEven_eq_of_lt (q : ℚ) (n : ℤ) (h1 : (n : ℚ) ≤ q) (h2 : q < (n : ℚ) + 1/2) :
    roundHalfEven q = n := by
  have hf : ⌊q⌋ = n := Int.floor_eq_iff.mpr ⟨h1, by linarith⟩
  have hfr : Int.fract q < 1/2 := by
    unfold Int.fract
    rw [hf]
    linarith
  unfold roundHalfEven
  rw [if_pos hfr, hf]

theorem roundHalfEven_eq_of_gt (q : ℚ) (n : ℤ) (h1 : (n : ℚ) + 1/2 < q) (h2 : q < (n : ℚ) + 1) :
    roundHalfEven q = n + 1 := by
  have hf : ⌊q⌋ = n := Int.floor_eq_iff.mpr ⟨by linarith, by linarith⟩
  have hfr : 1/2 < Int.fract q := by
    unfold Int.fract
    rw [hf]
    linarith
  unfold roundHalfEven
  rw [if_neg (by linarith), if_pos hfr, hf]

/-- C8: a request dispatched with an HTTP verb outside GET/POST/PUT/DELETE
(after the upper-casing the source applies) fails with the invalid-method
ValueError and produces no network traffic, and this happens exactly for
such verbs: for verbs in the set no invalid-method error is raised. -/
theorem invalid_method_fails_fast (c : FtRestClient) (method apipath : String)
    (params : Option (List (String × String))) (transport : Transport) :
    (((c.call method apipath params transport).1 = [] ∧
        (c.call method apipath params transport).2 =
          .error ("invalid method <" ++ method ++ ">"))
      ↔ validMethods.contains (strUpper method) = false)
    ∧ (validMethods.contains (strUpper method) = true →
        ∀ msg, (c.call method apipath params transport).2 ≠ .error msg) := by
  unfold FtRestClient.call
  by_cases h : validMethods.contains (strUpper method) = false
  · rw [if_pos h]
    constructor
    · exact ⟨fun _ => h, fun _ => ⟨rfl, rfl⟩⟩
    · intro ht
      rw [ht] at h
      exact absurd h (by simp)
  · rw [if_neg h]
    constructor
    · constructor
      · intro ⟨h1, _⟩
        cases transport <;> simp at h1
      · intro hf
        exact absurd hf h
    · intro _ msg
      cases transport <;> simp

theorem invalid_method_fails_fast_witness :
    ((((FtRestClient.mk "http://127.0.0.1:8080" none none).call "PATCH" "profit" none
          (.response "ok")).1 = [] ∧
        ((FtRestClient.mk "http://127.0.0.1:8080" none none).call "PATCH" "profit" none
          (.response "ok")).2 = .error ("invalid method <" ++ "PATCH" ++ ">"))
      ↔ validMethods.contains (strUpper "PATCH") = false)
    ∧ ((FtRestClient.mk "http://127.0.0.1:8080" none none).call "get" "profit" none
        (.response "ok")).2 ≠ .error "nope" :=
  ⟨(invalid_method_fails_fast (FtRestClient.mk "http://127.0.0.1:8080" none none)
      "PATCH" "profit" none (.response "ok")).1,
   (invalid_method_fails_fast (FtRestClient.mk "http://127.0.0.1:8080" none none)
      "get" "profit" none (.response "ok")).2 (by decide) "nope"⟩

/-- C9: on a transport-level connection failure the client does not raise:
for any request with a valid verb it logs the connection warning and
returns the absent result None (ok none). -/
theorem connection_failure_returns_none (c : FtRestClient) (method apipath : String)
    (params : Option (List (String × String)))
    (h : validMethods.contains (strUpper method) = true) :
    ∃ url, c.call method apipath params .connectionError =
      ([.networkRequest method url, .logWarning "Connection error"], .ok none) := by
  unfold FtRestClient.call
  rw [if_neg (by rw [h]; simp)]
  exact ⟨_, rfl⟩

theorem connection_failure_returns_none_witness :
    ∃ url, (FtRestClient.mk "http://127.0.0.1:8080" none none).call "GET" "profit" none
        .connectionError =
      ([.networkRequest "GET" url, .logWarning "Connection error"], .ok none) :=
  connection_failure_returns_none (FtRestClient.mk "http://127.0.0.1:8080" none none)
    "GET" "profit" none (by decide)

/-- C10: calling daily with a day count of 0 builds a request with no
timescale parameter, identical to the request built with the argument
omitted (None); only a nonzero day count adds the timescale parameter. -/
theorem daily_zero_days_no_timescale (c : FtRestClient) (t : Transport) :
    c.daily (some 0) t = c.daily none t
    ∧ dailyParams (some 0) = none
    ∧ dailyParams none = none
    ∧ (∀ d : ℤ, d ≠ 0 → dailyParams (some d) = some [("timescale", toString d)]) := by
  refine ⟨rfl, rfl, rfl, ?_⟩
  intro d hd
  unfold dailyParams
  simp only []
  rw [if_pos hd]

theorem daily_zero_days_no_timescale_witness :
    (FtRestClient.mk "http://127.0.0.1:8080" none none).daily (some 0) (.response "ok") =
      (FtRestClient.mk "http://127.0.0.1:8080" none none).daily none (.response "ok")
    ∧ dailyParams (some 7) = some [("timescale", toString (7 : ℤ))] :=
  ⟨(daily_zero_days_no_timescale (FtRestClient.mk "http://127.0.0.1:8080" none none)
      (.response "ok")).1,
   (daily_zero_days_no_timescale (FtRestClient.mk "http://127.0.0.1:8080" none none)
      (.response "ok")).2.2.2 7 (by decide)⟩

/-- C3: for nonzero whole, percentage returns the two-decimal formatting
of 100 * part / whole: the string parses back to exactly the value
100 * part / whole rounded to two decimals (within 1/200 of the true
value); for whole = 0 it fails with the explicit ZeroDivisionError
rather than producing an infinity or NaN. -/
theorem percentage_two_decimals (p w : ℚ) (hw : w ≠ 0) :
    percentage p w = .ok (fmt2 (roundHalfEven (100 * p / w * 100)))
    ∧ parseFix2 (fmt2 (roundHalfEven (100 * p / w * 100))) =
        some (((roundHalfEven (100 * p / w * 100) : ℤ) : ℚ) / 100)
    ∧ |((roundHalfEven (100 * p / w * 100) : ℤ) : ℚ) / 100 - 100 * p / w| ≤ 1 / 200
    ∧ percentage p 0 = .error .zeroDivision := by
  refine ⟨?_, parseFix2_fmt2 _, ?_, ?_⟩
  · unfold percentage
    rw [if_neg hw]
  · have h := roundHalfEven_close (100 * p / w * 100)
    have heq : ((roundHalfEven (100 * p / w * 100) : ℤ) : ℚ) / 100 - 100 * p / w =
        (((roundHalfEven (100 * p / w * 100) : ℤ) : ℚ) - 100 * p / w * 100) / 100 := by
      ring
    rw [heq, abs_div, abs_of_pos (by norm_num : (0:ℚ) < 100),
      div_le_iff₀ (by norm_num : (0:ℚ) < 100)]
    linarith
  · unfold percentage
    rw [if_pos rfl]

theorem percentage_two_decimals_witness :
    percentage 1 8 = .ok (fmt2 (roundHalfEven (100 * 1 / 8 * 100)))
    ∧ parseFix2 (fmt2 (roundHalfEven (100 * 1 / 8 * 100))) =
        some (((roundHalfEven (100 * 1 / 8 * 100) : ℤ) : ℚ) / 100)
    ∧ |((roundHalfEven (100 * 1 / 8 * 100) : ℤ) : ℚ) / 100 - 100 * 1 / 8| ≤ 1 / 200
    ∧ percentage 1 0 = .error .zeroDivision :=
  percentage_two_decimals 1 8 (by norm_num)

theorem tweet_compose_none (dd : DailyData) (cap pos : ℚ) :
    ∃ e, tweet_compose none dd cap pos = .error e := by
  cases hp : percentage dd.abs_profit cap with
  | error e =>
    refine ⟨e, ?_⟩
    unfold tweet_compose
    rw [hp]
    rfl
  | ok s =>
    refine ⟨.typeNoneNotSubscriptable, ?_⟩
    unfold tweet_compose
    rw [hp]
    rfl

theorem tweet_none (dd : DailyData) (cap pos : ℚ) :
    ∃ e, tweet none dd cap pos = .error e := by
  obtain ⟨e, he⟩ := tweet_compose_none dd cap pos
  refine ⟨e, ?_⟩
  unfold tweet
  rw [he]
  rfl

theorem db_save_none (dd : DailyData) (cap pos ts : ℚ) :
    ∃ e, db_save none dd cap pos ts = .error e := by
  cases hp : percentage dd.abs_profit cap with
  | error e =>
    refine ⟨e, ?_⟩
    unfold db_save
    rw [hp]
    rfl
  | ok s =>
    refine ⟨.typeNoneNotSubscriptable, ?_⟩
    unfold db_save
    rw [hp]
    rfl

theorem main_cycle_none_effects (profit : Option ProfitSummary) (daily : Option DailyResponse)
    (send_tweet save_to_db : Bool) (cap pos ts : ℚ)
    (h : profit = none ∨ daily = none) :
    (main_cycle false profit daily send_tweet save_to_db cap pos ts).1 = [] := by
  rcases h with h | h
  · subst h
    cases daily with
    | none => rfl
    | some dresp =>
      obtain ⟨data⟩ := dresp
      cases data with
      | nil => rfl
      | cons dd rest =>
        obtain ⟨e1, he1⟩ := tweet_none dd cap pos
        obtain ⟨e2, he2⟩ := db_save_none dd cap pos ts
        cases send_tweet <;> cases save_to_db <;> simp [main_cycle, he1, he2]
  · subst h
    rfl

theorem main_cycle_false_no_exit (profit : Option ProfitSummary)
    (daily : Option DailyResponse) (send_tweet save_to_db : Bool)
    (cap pos ts : ℚ) (code : Nat) :
    (main_cycle false profit daily send_tweet save_to_db cap pos ts).2 ≠
      some (.sysExit code) := by
  cases daily with
  | none => simp [main_cycle]
  | some dresp =>
    obtain ⟨data⟩ := dresp
    cases data with
    | nil => simp [main_cycle]
    | cons dd rest =>
      cases send_tweet <;> cases save_to_db <;>
        rcases ht : tweet profit dd cap pos with e | effs <;>
        rcases hd : db_save profit dd cap pos ts with e2 | effs2 <;>
        simp [main_cycle, ht, hd]

/-- C1: in a cycle where the profit fetch or the daily fetch yielded no
data, no publish side effect happens: the effect trace contains neither
a status update nor any database statement, and the scheduler still
sleeps and continues with the next cycle. -/
theorem fetch_failure_skips_publish (profit : Option ProfitSummary)
    (daily : Option DailyResponse) (send_tweet save_to_db : Bool)
    (cap pos ts interval : ℚ) (h : profit = none ∨ daily = none) :
    (loop_iteration false profit daily send_tweet save_to_db
        cap pos ts interval).effects.filter isPublish = []
    ∧ Effect.sleep interval ∈
        (loop_iteration false profit daily send_tweet save_to_db cap pos ts interval).effects
    ∧ (loop_iteration false profit daily send_tweet save_to_db
        cap pos ts interval).continues = true := by
  have heff := main_cycle_none_effects profit daily send_tweet save_to_db cap pos ts h
  rcases hm : main_cycle false profit daily send_tweet save_to_db cap pos ts with ⟨effs, r⟩
  rw [hm] at heff
  simp only at heff
  subst heff
  unfold loop_iteration
  rw [hm]
  rcases r with _ | r
  · simp [isPublish]
  · rcases r with e | code
    · simp [isPublish]
    · exact absurd (by rw [hm]) (main_cycle_false_no_exit profit daily send_tweet
        save_to_db cap pos ts code)

theorem fetch_failure_skips_publish_witness :
    (loop_iteration false none (some ⟨[⟨"2024-01-01", 10, 2⟩]⟩) true true
        1000 50 0 300).effects.filter isPublish = []
    ∧ Effect.sleep 300 ∈
        (loop_iteration false none (some ⟨[⟨"2024-01-01", 10, 2⟩]⟩) true true
          1000 50 0 300).effects
    ∧ (loop_iteration false none (some ⟨[⟨"2024-01-01", 10, 2⟩]⟩) true true
        1000 50 0 300).continues = true :=
  fetch_failure_skips_publish none (some ⟨[⟨"2024-01-01", 10, 2⟩]⟩) true true
    1000 50 0 300 (Or.inl rfl)

/-- C2: any Python exception raised inside one cycle body is caught at
the loop boundary: the iteration logs the error message, does not
terminate the process, and still reaches the sleep step. -/
theorem cycle_error_isolated (profit : Option ProfitSummary) (daily : Option DailyResponse)
    (send_tweet save_to_db : Bool) (cap pos ts interval : ℚ) (e : PyExc)
    (h : (main_cycle false profit daily send_tweet save_to_db cap pos ts).2 = some (.exc e)) :
    (loop_iteration false profit daily send_tweet save_to_db cap pos ts interval).continues = true
    ∧ (loop_iteration false profit daily send_tweet save_to_db
        cap pos ts interval).exitStatus = none
    ∧ Effect.logError ("An error occurred: " ++ pyMsg e ++ ", skipping run") ∈
        (loop_iteration false profit daily send_tweet save_to_db cap pos ts interval).effects
    ∧ Effect.sleep interval ∈
        (loop_iteration false profit daily send_tweet save_to_db cap pos ts interval).effects := by
  rcases hm : main_cycle false profit daily send_tweet save_to_db cap pos ts with ⟨effs, r⟩
  rw [hm] at h
  simp only at h
  subst h
  unfold loop_iteration
  rw [hm]
  simp

theorem cycle_error_isolated_witness :
    (loop_iteration false none none true true 1000 50 0 300).continues = true
    ∧ (loop_iteration false none none true true 1000 50 0 300).exitStatus = none
    ∧ Effect.logError ("An error occurred: " ++ pyMsg .typeNoneNotSubscriptable ++
        ", skipping run") ∈ (loop_iteration false none none true true 1000 50 0 300).effects
    ∧ Effect.sleep 300 ∈ (loop_iteration false none none true true 1000 50 0 300).effects :=
  cycle_error_isolated none none true true 1000 50 0 300 .typeNoneNotSubscriptable rfl

theorem percentage_ok (a b : ℚ) (hb : b ≠ 0) :
    percentage a b = .ok (fmt2 (roundHalfEven (100 * a / b * 100))) := by
  unfold percentage
  rw [if_neg hb]

/-- The eight report lines that tweet composes when every percentage
computation succeeds, spelled with their divisors: starting capital
everywhere except position size, which divides by
starting capital + profit_closed_coin. -/
def reportLines (p : ProfitSummary) (dd : DailyData) (cap pos : ℚ) : List String :=
  ["Closed profit today (" ++ dd.date ++ "): " ++
     fmt2 (roundHalfEven (100 * dd.abs_profit / cap * 100)) ++ "%",
   "Trades today: " ++ toString dd.trade_count,
   "Open/closed total profit: " ++
     fmt2 (roundHalfEven (100 * p.profit_all_coin / cap * 100)) ++ "%/" ++
     fmt2 (roundHalfEven (100 * p.profit_closed_coin / cap * 100)) ++ "%",
   "Position size: " ++
     fmt2 (roundHalfEven (100 * pos / (cap + p.profit_closed_coin) * 100)) ++ "%",
   "Best: " ++ p.best_pair ++ " (" ++
     fmt2 (roundHalfEven (100 * p.best_rate / cap * 100)) ++ "%)",
   "All trades/closed: " ++ toString p.trade_count ++ "/" ++ toString p.closed_trade_count,
   "Last action: " ++ p.latest_trade_date,
   "Average trade duration: " ++ p.avg_duration]

theorem tweet_compose_ok (p : ProfitSummary) (dd : DailyData) (cap pos : ℚ)
    (h1 : cap ≠ 0) (h2 : cap + p.profit_closed_coin ≠ 0) :
    tweet_compose (some p) dd cap pos = .ok (reportLines p dd cap pos) := by
  have e1 := percentage_ok dd.abs_profit cap h1
  have e2 := percentage_ok p.profit_closed_coin cap h1
  have e3 := percentage_ok p.profit_all_coin cap h1
  have e4 := percentage_ok pos (cap + p.profit_closed_coin) h2
  have e5 := percentage_ok p.best_rate cap h1
  unfold tweet_compose
  rw [e1]
  simp only []
  rw [e2, e3, e4, e5]
  rfl

/-- The row written by db_save when every percentage computation
succeeds: column names from SQL_CREATE zipped against the values in
the INSERT tuple order of the source. -/
def dbRow (p : ProfitSummary) (dd : DailyData) (cap pos ts : ℚ) :
    List (String × DBValue) :=
  trades_columns.zip
    [.num ts, .str dd.date,
     .str (fmt2 (roundHalfEven (100 * dd.abs_profit / cap * 100))),
     .int dd.trade_count,
     .str (fmt2 (roundHalfEven (100 * p.profit_closed_coin / cap * 100))),
     .str (fmt2 (roundHalfEven (100 * p.profit_all_coin / cap * 100))),
     .str (fmt2 (roundHalfEven (100 * pos / (cap + p.profit_closed_coin) * 100))),
     .str (fmt2 (roundHalfEven (100 * p.best_rate / cap * 100))),
     .str p.best_pair, .int p.trade_count, .int p.closed_trade_count,
     .str p.latest_trade_date, .str p.avg_duration]

theorem db_save_ok (p : ProfitSummary) (dd : DailyData) (cap pos ts : ℚ)
    (h1 : cap ≠ 0) (h2 : cap + p.profit_closed_coin ≠ 0) :
    db_save (some p) dd cap pos ts = .ok [.dbCreateTable, .dbInsertRow (dbRow p dd cap pos ts)] := by
  have e1 := percentage_ok dd.abs_profit cap h1
  have e2 := percentage_ok p.profit_closed_coin cap h1
  have e3 := percentage_ok p.profit_all_coin cap h1
  have e4 := percentage_ok pos (cap + p.profit_closed_coin) h2
  have e5 := percentage_ok p.best_rate cap h1
  unfold db_save
  rw [e1]
  simp only []
  rw [e2, e3, e4, e5]
  rfl

/-- Network effects (requests put on the wire). -/
def isNetwork : Effect → Bool
  | .networkRequest _ _ => true
  | _ => false

/-- C6 counterexample: with the show flag the program does not exit
before entering the poll loop.  The show check sits inside main, which
runs inside the first loop iteration, and SystemExit passes through the
except Exception handler but not the finally block: the trace of the
show run contains the poll-loop sleep before the process exits 0. -/
theorem show_flag_sleeps_inside_loop :
    (loop_iteration true none none false false 1000 50 0 300).effects =
      [.printed print_commands_output, .sleep 300]
    ∧ Effect.sleep 300 ∈ (loop_iteration true none none false false 1000 50 0 300).effects
    ∧ (loop_iteration true none none false false 1000 50 0 300).exitStatus = some 0 := by
  refine ⟨rfl, ?_, rfl⟩
  exact List.Mem.tail _ (List.Mem.head _)

/-- C6 amended: a show-flag run prints the full command listing, issues
no network request and no publish effect, terminates the process with
status 0, and does not start another iteration; but it does so from
inside the first poll-loop iteration, after that iteration's final
sleep. -/
theorem show_flag_lists_and_exits (profit : Option ProfitSummary)
    (daily : Option DailyResponse) (send_tweet save_to_db : Bool)
    (cap pos ts interval : ℚ) :
    loop_iteration true profit daily send_tweet save_to_db cap pos ts interval =
      ⟨[.printed print_commands_output, .sleep interval], false, some 0⟩
    ∧ (loop_iteration true profit daily send_tweet save_to_db
        cap pos ts interval).effects.filter isNetwork = []
    ∧ (loop_iteration true profit daily send_tweet save_to_db
        cap pos ts interval).effects.filter isPublish = []
    ∧ client_commands.map Prod.fst =
        ["balance", "blacklist", "count", "daily", "edge", "forcebuy", "forcesell",
         "performance", "profit", "reload_conf", "show_config", "start", "status",
         "stop", "stopbuy", "trades", "version", "whitelist"] :=
  ⟨rfl, rfl, rfl, rfl⟩

/-- C7: whenever the report is composed (both divisors nonzero), it has
exactly 8 lines, the social post is the newline-join of exactly those
lines, and the lines carry the fixed labels in the fixed order. -/
theorem compose_eight_lines (p : ProfitSummary) (dd : DailyData) (cap pos : ℚ)
    (h1 : cap ≠ 0) (h2 : cap + p.profit_closed_coin ≠ 0) :
    tweet_compose (some p) dd cap pos = .ok (reportLines p dd cap pos)
    ∧ (reportLines p dd cap pos).length = 8
    ∧ tweet (some p) dd cap pos =
        .ok [.statusUpdate (String.intercalate "\n" (reportLines p dd cap pos))]
    ∧ ∃ r1 r2 r3 r4 r5 r6 r7 r8, reportLines p dd cap pos =
        ["Closed profit today (" ++ r1,
         "Trades today: " ++ r2,
         "Open/closed total profit: " ++ r3,
         "Position size: " ++ r4,
         "Best: " ++ r5,
         "All trades/closed: " ++ r6,
         "Last action: " ++ r7,
         "Average trade duration: " ++ r8] := by
  have hc := tweet_compose_ok p dd cap pos h1 h2
  refine ⟨hc, rfl, ?_, ?_⟩
  · unfold tweet
    rw [hc]
    rfl
  · refine ⟨dd.date ++ ("): " ++ (fmt2 (roundHalfEven (100 * dd.abs_profit / cap * 100)) ++ "%")),
      toString dd.trade_count,
      fmt2 (roundHalfEven (100 * p.profit_all_coin / cap * 100)) ++ ("%/" ++
        (fmt2 (roundHalfEven (100 * p.profit_closed_coin / cap * 100)) ++ "%")),
      fmt2 (roundHalfEven (100 * pos / (cap + p.profit_closed_coin) * 100)) ++ "%",
      p.best_pair ++ (" (" ++ (fmt2 (roundHalfEven (100 * p.best_rate / cap * 100)) ++ "%)")),
      toString p.trade_count ++ ("/" ++ toString p.closed_trade_count),
      p.latest_trade_date, p.avg_duration, ?_⟩
    simp only [reportLines, String.append_assoc]

theorem compose_eight_lines_witness :
    tweet_compose (some (ProfitSummary.mk 100 150 20 "ETH/BTC" 10 8 "2024-01-01" "2:30"))
        (DailyData.mk "2024-01-01" 10 2) 1000 50 =
      .ok (reportLines (ProfitSummary.mk 100 150 20 "ETH/BTC" 10 8 "2024-01-01" "2:30")
        (DailyData.mk "2024-01-01" 10 2) 1000 50)
    ∧ (reportLines (ProfitSummary.mk 100 150 20 "ETH/BTC" 10 8 "2024-01-01" "2:30")
        (DailyData.mk "2024-01-01" 10 2) 1000 50).length = 8
    ∧ tweet (some (ProfitSummary.mk 100 150 20 "ETH/BTC" 10 8 "2024-01-01" "2:30"))
        (DailyData.mk "2024-01-01" 10 2) 1000 50 =
        .ok [.statusUpdate (String.intercalate "\n"
          (reportLines (ProfitSummary.mk 100 150 20 "ETH/BTC" 10 8 "2024-01-01" "2:30")
            (DailyData.mk "2024-01-01" 10 2) 1000 50))]
    ∧ ∃ r1 r2 r3 r4 r5 r6 r7 r8,
        reportLines (ProfitSummary.mk 100 150 20 "ETH/BTC" 10 8 "2024-01-01" "2:30")
          (DailyData.mk "2024-01-01" 10 2) 1000 50 =
        ["Closed profit today (" ++ r1,
         "Trades today: " ++ r2,
         "Open/closed total profit: " ++ r3,
         "Position size: " ++ r4,
         "Best: " ++ r5,
         "All trades/closed: " ++ r6,
         "Last action: " ++ r7,
         "Average trade duration: " ++ r8] :=
  compose_eight_lines (ProfitSummary.mk 100 150 20 "ETH/BTC" 10 8 "2024-01-01" "2:30")
    (DailyData.mk "2024-01-01" 10 2) 1000 50 (by norm_num) (by norm_num)

theorem roundA : roundHalfEven ((100 : ℚ)) = 100 :=
  roundHalfEven_eq_of_lt _ 100 (by norm_num) (by norm_num)

theorem roundB : roundHalfEven ((1000 : ℚ)) = 1000 :=
  roundHalfEven_eq_of_lt _ 1000 (by norm_num) (by norm_num)

theorem roundC : roundHalfEven ((1500 : ℚ)) = 1500 :=
  roundHalfEven_eq_of_lt _ 1500 (by norm_num) (by norm_num)

theorem roundD : roundHalfEven ((5000 / 11 : ℚ)) = 455 := by
  have h := roundHalfEven_eq_of_gt (5000 / 11) 454 (by norm_num) (by norm_num)
  omega

theorem roundE : roundHalfEven ((200 : ℚ)) = 200 :=
  roundHalfEven_eq_of_lt _ 200 (by norm_num) (by norm_num)

/-- C4: the composed report divides position size by the current capital
(starting capital plus closed profit) while every other metric divides
by starting capital, as spelled by reportLines; on the reference vector
this yields closed profit today 1.00, closed total 10.00, open total
15.00, position size 4.55 (divisor 1100) and best pair 2.00. -/
theorem report_divisors_and_vector (p : ProfitSummary) (dd : DailyData) (cap pos : ℚ)
    (h1 : cap ≠ 0) (h2 : cap + p.profit_closed_coin ≠ 0) :
    tweet_compose (some p) dd cap pos = .ok (reportLines p dd cap pos)
    ∧ tweet_compose (some (ProfitSummary.mk 100 150 20 "ETH/BTC" 10 8 "2024-01-01" "2:30"))
        (DailyData.mk "2024-01-01" 10 2) 1000 50 =
      .ok ["Closed profit today (2024-01-01): 1.00%",
           "Trades today: 2",
           "Open/closed total profit: 15.00%/10.00%",
           "Position size: 4.55%",
           "Best: ETH/BTC (2.00%)",
           "All trades/closed: 10/8",
           "Last action: 2024-01-01",
           "Average trade duration: 2:30"] := by
  refine ⟨tweet_compose_ok p dd cap pos h1 h2, ?_⟩
  rw [tweet_compose_ok _ _ _ _ (by norm_num) (by norm_num)]
  norm_num [reportLines, roundA, roundB, roundC, roundD, roundE]
  simp [fmt2, fmt2data, renderNat, digitChar]
  decide

theorem report_divisors_and_vector_witness :
    tweet_compose (some (ProfitSummary.mk 100 150 20 "ETH/BTC" 10 8 "2024-01-01" "2:30"))
        (DailyData.mk "2024-01-01" 10 2) 1000 50 =
      .ok (reportLines (ProfitSummary.mk 100 150 20 "ETH/BTC" 10 8 "2024-01-01" "2:30")
        (DailyData.mk "2024-01-01" 10 2) 1000 50)
    ∧ tweet_compose (some (ProfitSummary.mk 100 150 20 "ETH/BTC" 10 8 "2024-01-01" "2:30"))
        (DailyData.mk "2024-01-01" 10 2) 1000 50 =
      .ok ["Closed profit today (2024-01-01): 1.00%",
           "Trades today: 2",
           "Open/closed total profit: 15.00%/10.00%",
           "Position size: 4.55%",
           "Best: ETH/BTC (2.00%)",
           "All trades/closed: 10/8",
           "Last action: 2024-01-01",
           "Average trade duration: 2:30"] :=
  report_divisors_and_vector (ProfitSummary.mk 100 150 20 "ETH/BTC" 10 8 "2024-01-01" "2:30")
    (DailyData.mk "2024-01-01" 10 2) 1000 50 (by norm_num) (by norm_num)

/-- C5 refutation: on the reference vector, db_save writes the best-pair
profit percentage string into the column named best_pair and the pair
name into the column named best_pair_profit_percentage: the INSERT tuple
of the source lists best_pair_profit_percentage before best_pair while
SQL_CREATE declares the columns in the opposite order. -/
theorem db_save_swaps_best_pair_columns :
    db_save (some (ProfitSummary.mk 100 150 20 "ETH/BTC" 10 8 "2024-01-01" "2:30"))
        (DailyData.mk "2024-01-01" 10 2) 1000 50 42 =
      .ok [.dbCreateTable, .dbInsertRow
        [("timestamp", .num 42), ("day", .str "2024-01-01"),
         ("closed_profit_today", .str "1.00"), ("trades_today", .int 2),
         ("closed_profit_percentage_total", .str "10.00"),
         ("open_profit_percentage_total", .str "15.00"),
         ("position_size", .str "4.55"),
         ("best_pair", .str "2.00"),
         ("best_pair_profit_percentage", .str "ETH/BTC"),
         ("all_trades", .int 10), ("closed_trades", .int 8),
         ("last_action", .str "2024-01-01"), ("average_duration", .str "2:30")]]
    ∧ ([("timestamp", DBValue.num 42), ("day", .str "2024-01-01"),
         ("closed_profit_today", .str "1.00"), ("trades_today", .int 2),
         ("closed_profit_percentage_total", .str "10.00"),
         ("open_profit_percentage_total", .str "15.00"),
         ("position_size", .str "4.55"),
         ("best_pair", .str "2.00"),
         ("best_pair_profit_percentage", .str "ETH/BTC"),
         ("all_trades", .int 10), ("closed_trades", .int 8),
         ("last_action", .str "2024-01-01"),
         ("average_duration", .str "2:30")].lookup "best_pair" = some (.str "2.00")
       ∧ [("timestamp", DBValue.num 42), ("day", .str "2024-01-01"),
         ("closed_profit_today", .str "1.00"), ("trades_today", .int 2),
         ("closed_profit_percentage_total", .str "10.00"),
         ("open_profit_percentage_total", .str "15.00"),
         ("position_size", .str "4.55"),
         ("best_pair", .str "2.00"),
         ("best_pair_profit_percentage", .str "ETH/BTC"),
         ("all_trades", .int 10), ("closed_trades", .int 8),
         ("last_action", .str "2024-01-01"),
         ("average_duration", .str "2:30")].lookup "best_pair_profit_percentage" =
           some (.str "ETH/BTC")) := by
  constructor
  · rw [db_save_ok _ _ _ _ _ (by norm_num) (by norm_num)]
    norm_num [dbRow, trades_columns, roundA, roundB, roundC, roundD, roundE]
    simp [fmt2, fmt2data, renderNat, digitChar]
  · constructor <;> decide
